import Mathlib

/-!
Verification development for the gapless playback queue engine of
rompmusic-client (src/store/playerStore.ts, the expo-audio version).

The engine state is the zustand store's fields together with the
module-level mutable variables (sound, nextSound, prestartedNext,
currentVolume).  Audio sessions are modelled as records holding the data
the engine observes and mutates through the opaque AudioPlayer handle:
the bound track, volume, seek position, playing flag, and the per-listener
closure latch (the local variable named finished in the source).
Fractional seconds and volumes are rationals.  Operations that can throw a
TypeError in JavaScript (indexing the queue out of range and then
dereferencing the result) return Option; none marks the abnormal exit.
External effects are parameters: the autoplay fetch result and whether
createAudioPlayer succeeds for a preload.
-/

structure Track where
  id : Int
  title : String
  album_id : Int
  artist_id : Int
  album_title : Option String
  artist_name : Option String
  track_number : Int
  disc_number : Int
  duration : Rat
  deriving DecidableEq, Repr

/-- One live AudioPlayer as the engine observes it: bound track, volume,
seek position, playing flag, and the listener closure's finish latch. -/
structure Session where
  track : Track
  volume : Rat
  pos : Rat
  playing : Bool
  latchFinished : Bool
  deriving DecidableEq, Repr

/-- The store state plus the module-level variables of playerStore.ts. -/
structure EngineState where
  queue : List Track
  currentIndex : Int
  currentTrack : Option Track
  isPlaying : Bool
  position : Rat
  duration : Rat
  volume : Rat
  isLoading : Bool
  error : Option String
  autoplayEnabled : Bool
  autoplayStartIndex : Option Int
  sound : Option Session
  nextSound : Option Session
  prestartedNext : Bool
  currentVolume : Rat
  deriving DecidableEq, Repr

/-- queue[i] in JavaScript: undefined (none) when i is negative or past
the end. -/
def getAt (q : List Track) (i : Int) : Option Track :=
  if 0 ≤ i then q.get? i.toNat else none

/-- Session built by loadAndPlay: volume is the process volume, seekTo is
called only when the requested position is positive, the player starts
playing, and the installed playbackStatusUpdate listener begins with its
finished latch false. -/
def mkSession (t : Track) (cv : Rat) (startPos : Rat) : Session :=
  { track := t
    volume := cv
    pos := if 0 < startPos then startPos else 0
    playing := true
    latchFinished := false }

/-- Session built by preloadNext: createAudioPlayer with shouldPlay
absent, default volume 1, not yet playing, no listener. -/
def preloadSession (t : Track) : Session :=
  { track := t, volume := 1, pos := 0, playing := false, latchFinished := false }

/-- The initial store state: create(...) fields plus the module-level
variables at load time. -/
def initialState : EngineState :=
  { queue := []
    currentIndex := 0
    currentTrack := none
    isPlaying := false
    position := 0
    duration := 0
    volume := 1
    isLoading := false
    error := none
    autoplayEnabled := false
    autoplayStartIndex := none
    sound := none
    nextSound := none
    prestartedNext := false
    currentVolume := 1 }

/-- setVolume: clamp with Math.max(0, Math.min(1, v)), store into the
module variable and the store field, push onto the active sound when one
exists. -/
def setVolume (s : EngineState) (v : Rat) : EngineState :=
  let cv := max 0 (min 1 v)
  let s1 := { s with currentVolume := cv, volume := cv }
  match s1.sound with
  | some snd => { s1 with sound := some { snd with volume := cv } }
  | none => s1

/-- setQueue: replace the queue and cursor and clear the autoplay
boundary; nothing else is touched. -/
def setQueue (s : EngineState) (tracks : List Track) (startIndex : Int) : EngineState :=
  { s with queue := tracks, currentIndex := startIndex, autoplayStartIndex := none }

/-- play: no-op without a current track; otherwise set the loading flags,
then resume the existing sound or create a fresh session (and preload the
next track when there is one).  loadFail models createAudioPlayer
throwing inside loadAndPlay; preloadOk models whether preloadNext's
internal try succeeds. -/
def play (s : EngineState) (loadFail : Option String) (preloadOk : Bool) : EngineState :=
  match s.currentTrack with
  | none => s
  | some ct =>
    let s1 := { s with isPlaying := true, isLoading := true, error := none }
    match s1.sound with
    | some snd =>
      { s1 with sound := some { snd with playing := true }, isPlaying := true, isLoading := false }
    | none =>
      match loadFail with
      | some msg => { s1 with isLoading := false, error := some msg }
      | none =>
        let s2 := { s1 with sound := some (mkSession ct s1.currentVolume s1.position) }
        let s3 :=
          match getAt s2.queue (s2.currentIndex + 1) with
          | some nt =>
            { s2 with nextSound := if preloadOk then some (preloadSession nt) else none }
          | none => s2
        { s3 with isPlaying := true, isLoading := false }

/-- pause: capture the live position, pause the sound, clear isPlaying. -/
def pause (s : EngineState) : EngineState :=
  let s1 :=
    match s.sound with
    | some snd => { s with position := snd.pos, sound := some { snd with playing := false } }
    | none => s
  { s1 with isPlaying := false }

/-- seekTo: when a sound exists, seek it and set position to the raw
argument; otherwise a no-op.  The source performs no clamping. -/
def seekTo (s : EngineState) (seconds : Rat) : EngineState :=
  match s.sound with
  | some snd => { s with sound := some { snd with pos := seconds }, position := seconds }
  | none => s

/-- skipToNext: when the cursor is at the tail, optionally extend the
queue from the autoplay supplier (similarResult; none models a thrown
fetch), then either tear everything down on exhaustion or promote.
Promotion consumes the preloaded sound when present (fresh listener, so a
fresh finished latch, process volume, ensure playing, preload the track
after next) or loads the next track directly.  Returns none on the
JavaScript TypeError paths (queue indexed at a negative position). -/
def skipToNext (s : EngineState) (similarResult : Option (List Track)) (preloadOk : Bool) :
    Option EngineState :=
  let s1 :=
    if (s.queue.length : Int) ≤ s.currentIndex + 1 then
      if s.autoplayEnabled ∧ s.currentTrack.isSome then
        match similarResult with
        | some mapped =>
          if mapped.length ≠ 0 then
            { s with queue := s.queue ++ mapped,
                     autoplayStartIndex := some (s.queue.length : Int) }
          else s
        | none => s
      else s
    else s
  if (s1.queue.length : Int) ≤ s1.currentIndex + 1 then
    some { s1 with sound := none, nextSound := none, prestartedNext := false,
                   isPlaying := false, currentTrack := none }
  else
    let nextIndex := s1.currentIndex + 1
    match getAt s1.queue nextIndex with
    | none => none
    | some nextTrack =>
      match s1.nextSound with
      | some preloaded =>
        let promoted : Session :=
          { preloaded with volume := s1.currentVolume, playing := true, latchFinished := false }
        let s2 := { s1 with nextSound := none, prestartedNext := false, sound := some promoted }
        let s3 :=
          match getAt s2.queue (nextIndex + 1) with
          | some nn =>
            { s2 with nextSound := if preloadOk then some (preloadSession nn) else none }
          | none => s2
        some { s3 with currentTrack := some nextTrack, currentIndex := nextIndex,
                       position := 0, duration := nextTrack.duration }
      | none =>
        let s2 := { s1 with prestartedNext := false,
                            sound := some (mkSession nextTrack s1.currentVolume 0) }
        some { s2 with currentTrack := some nextTrack, currentIndex := nextIndex,
                       position := 0, duration := nextTrack.duration }

/-- skipToPrevious: past three seconds with a live sound, seek it to zero
and reset position; otherwise, at the head of the queue, do nothing;
otherwise release both sessions, reset the prestart flag, and load the
previous track from zero. -/
def skipToPrevious (s : EngineState) : Option EngineState :=
  if 3 < s.position ∧ s.sound.isSome then
    some { s with sound := s.sound.map (fun snd => { snd with pos := 0 }), position := 0 }
  else if s.currentIndex ≤ 0 then
    some s
  else
    match getAt s.queue (s.currentIndex - 1) with
    | none => none
    | some prevTrack =>
      some { s with sound := some (mkSession prevTrack s.currentVolume 0),
                    nextSound := none, prestartedNext := false,
                    currentTrack := some prevTrack, currentIndex := s.currentIndex - 1,
                    position := 0, duration := prevTrack.duration }

/-- addToQueue: append and clear the autoplay boundary. -/
def addToQueue (s : EngineState) (arr : List Track) : EngineState :=
  { s with queue := s.queue ++ arr, autoplayStartIndex := none }

/-- Array.prototype.splice start index normalisation: negative counts
from the end, clamped into the array. -/
def spliceStart (len : Nat) (i : Int) : Nat :=
  if i < 0 then ((len : Int) + i).toNat else min i.toNat len

/-- playNext: release the preload, reset the prestart flag, splice the
tracks in right after the cursor, clear the autoplay boundary, then
preload the new next track when one exists. -/
def playNext (s : EngineState) (arr : List Track) (preloadOk : Bool) : EngineState :=
  let s1 := { s with nextSound := none, prestartedNext := false }
  let insertAt := spliceStart s1.queue.length (s1.currentIndex + 1)
  let s2 := { s1 with queue := s1.queue.take insertAt ++ arr ++ s1.queue.drop insertAt,
                      autoplayStartIndex := none }
  if s2.currentIndex + 1 < (s2.queue.length : Int) then
    match getAt s2.queue (s2.currentIndex + 1) with
    | some nt => { s2 with nextSound := if preloadOk then some (preloadSession nt) else none }
    | none => s2
  else s2

/-- clearQueue: empty the queue, reset the cursor to zero, clear the
current track and the autoplay boundary.  The module-level session
handles are not touched. -/
def clearQueue (s : EngineState) : EngineState :=
  { s with queue := [], currentIndex := 0, currentTrack := none, autoplayStartIndex := none }

/-- setAutoplay. -/
def setAutoplay (s : EngineState) (enabled : Bool) : EngineState :=
  { s with autoplayEnabled := enabled }

/-- playTrack: release both sessions, reset the prestart flag, install
the given queue (or the singleton) with the cursor on the requested
track, then play. -/
def playTrack (s : EngineState) (track : Track) (q : List Track)
    (loadFail : Option String) (preloadOk : Bool) : EngineState :=
  let s1 := { s with sound := none, nextSound := none, prestartedNext := false }
  let tracks := if q.length ≠ 0 then q else [track]
  let startIndex : Int :=
    match tracks.findIdx? (fun t => t.id = track.id) with
    | some i => (i : Int)
    | none => 0
  let s2 := { s1 with queue := tracks, currentIndex := startIndex,
                      currentTrack := some track, position := 0,
                      duration := track.duration, autoplayStartIndex := none }
  play s2 loadFail preloadOk

/-- One playbackStatusUpdate event as the listeners receive it. -/
structure PlaybackStatus where
  isLoaded : Bool
  didJustFinish : Bool
  currentTime : Rat
  durationVal : Option Rat
  deriving DecidableEq, Repr

/-- The body of the playbackStatusUpdate listener installed by
loadAndPlay and by skipToNext's promotion: report the position, prestart
the preloaded sound at volume zero inside the 0.4 s window, and fire
onFinish once when the finish signal or the 0.02 s end threshold holds
and the closure latch is still clear.  Returns the state after the
position and prestart effects, the new latch, and whether onFinish
fired. -/
def listenerStep (s : EngineState) (latch : Bool) (st : PlaybackStatus) :
    EngineState × Bool × Bool :=
  let s1 := { s with position := st.currentTime }
  let dur := st.durationVal.getD 0
  let pos := st.currentTime
  let s2 :=
    if ¬ s1.prestartedNext ∧ s1.nextSound.isSome ∧ 0 < dur ∧ max 0 (dur - Rat.divInt 2 5) ≤ pos then
      { s1 with prestartedNext := true,
                nextSound := s1.nextSound.map (fun ns => { ns with volume := 0, playing := true }) }
    else s1
  let atEnd := st.isLoaded ∧ 0 < dur ∧ max 0 (dur - Rat.divInt 1 50) ≤ pos
  if ¬ latch ∧ (st.didJustFinish = true ∨ atEnd) then (s2, true, true)
  else (s2, latch, false)

/- Concrete fixtures used by the counterexamples and witnesses. -/

def trackA : Track :=
  { id := 1, title := "A", album_id := 1, artist_id := 1, album_title := none,
    artist_name := none, track_number := 1, disc_number := 1, duration := 30 }

def trackB : Track :=
  { id := 2, title := "B", album_id := 1, artist_id := 1, album_title := none,
    artist_name := none, track_number := 2, disc_number := 1, duration := 40 }

def trackC : Track :=
  { id := 3, title := "C", album_id := 1, artist_id := 1, album_title := none,
    artist_name := none, track_number := 3, disc_number := 1, duration := 20 }

/-- A mid-playback state: queue [A, B], cursor on A, a live sound for A,
a preloaded sound for B that has already been prestarted. -/
def stPrestarted : EngineState :=
  { initialState with
      queue := [trackA, trackB]
      currentIndex := 0
      currentTrack := some trackA
      isPlaying := true
      position := Rat.divInt 297 10
      duration := 30
      sound := some { track := trackA, volume := 1, pos := Rat.divInt 297 10, playing := true,
                      latchFinished := false }
      nextSound := some { track := trackB, volume := 0, pos := 0, playing := true,
                          latchFinished := false }
      prestartedNext := true }

/-- Playing track B (index 1) 1.2 s in: the double-tap window. -/
def stOnBEarly : EngineState :=
  { initialState with
      queue := [trackA, trackB]
      currentIndex := 1
      currentTrack := some trackB
      isPlaying := true
      position := Rat.divInt 6 5
      duration := 40
      sound := some { track := trackB, volume := 1, pos := Rat.divInt 6 5, playing := true,
                      latchFinished := false }
      prestartedNext := true }

/-- Playing track B (index 1) 10 s in. -/
def stOnBLate : EngineState :=
  { stOnBEarly with
      position := 10
      sound := some { track := trackB, volume := 1, pos := 10, playing := true,
                      latchFinished := false } }

def sessB10 : Session :=
  { track := trackB, volume := 1, pos := 4, playing := true, latchFinished := false }

/-- A playing state with duration 10 for the seek counterexample. -/
def stDur10 : EngineState :=
  { initialState with
      queue := [trackB]
      currentIndex := 0
      currentTrack := some trackB
      isPlaying := true
      position := 4
      duration := 10
      sound := some sessB10 }

/-- A queue installed but no session yet: the state play() starts from. -/
def stReady : EngineState :=
  { initialState with
      queue := [trackA]
      currentIndex := 0
      currentTrack := some trackA
      duration := 30 }

/-- A status update at the very end of a 30 s track on which both
promotion triggers hold: the finish signal and the 0.02 s threshold. -/
def stFinish : PlaybackStatus :=
  { isLoaded := true, didJustFinish := true, currentTime := 30, durationVal := some 30 }

/-- Claim C3 counterexample: clearQueue does not release the sessions.
Starting from a state with a live active session and a live preloaded
session, clearQueue leaves both handles set, refuting the claim that both
have been released and are null afterwards. -/
theorem c3_clear_queue_keeps_sessions :
    (clearQueue stPrestarted).sound.isSome = true ∧
    (clearQueue stPrestarted).nextSound.isSome = true := by
  decide

/-- Claim C3 (amended): clearQueue empties the queue, resets the cursor
to 0, clears the current track and the autoplay boundary, and leaves both
session handles (and the prestart flag) untouched. -/
theorem c3_clear_queue_amended (s : EngineState) :
    (clearQueue s).queue = [] ∧ (clearQueue s).currentIndex = 0 ∧
    (clearQueue s).currentTrack = none ∧ (clearQueue s).autoplayStartIndex = none ∧
    (clearQueue s).sound = s.sound ∧ (clearQueue s).nextSound = s.nextSound ∧
    (clearQueue s).prestartedNext = s.prestartedNext := by
  simp [clearQueue]

/-- Claim C4 counterexample: the initial engine state has currentIndex 0
with an empty queue, which is neither the -1 sentinel nor a valid index,
refuting the stated invariant. -/
theorem c4_initial_cursor_violates_invariant :
    ¬(initialState.currentIndex = -1 ∨
      (0 ≤ initialState.currentIndex ∧
       initialState.currentIndex < (initialState.queue.length : Int))) := by
  decide

/-- Claim C4 (amended): the engine represents the empty/no-selection
state with currentIndex 0 and currentTrack null, never -1: both the
initial state and the state after clearQueue have an empty queue,
currentIndex 0 and no current track. -/
theorem c4_empty_cursor_amended (s : EngineState) :
    initialState.currentIndex = 0 ∧ initialState.queue = [] ∧
    initialState.currentTrack = none ∧
    (clearQueue s).currentIndex = 0 ∧ (clearQueue s).queue = [] ∧
    (clearQueue s).currentTrack = none := by
  simp [initialState, clearQueue]

/-- Claim C7: every addToQueue, playNext and setQueue call sets the
autoplay boundary to null, whatever its previous value. -/
theorem c7_mutations_clear_boundary (s : EngineState) (arr tracks : List Track)
    (i : Int) (ok : Bool) :
    (addToQueue s arr).autoplayStartIndex = none ∧
    (playNext s arr ok).autoplayStartIndex = none ∧
    (setQueue s tracks i).autoplayStartIndex = none := by
  refine ⟨by simp [addToQueue], ?_, by simp [setQueue]⟩
  unfold playNext
  dsimp only
  split
  · split <;> simp
  · simp

/-- Claim C9: setVolume stores the clamp max(0, min(1, v)) as the process
volume, the observable volume equals that clamped value, and a repeated
call with the same argument leaves the state unchanged. -/
theorem c9_set_volume_clamp_idempotent (s : EngineState) (v : Rat) :
    (setVolume s v).volume = max 0 (min 1 v) ∧
    (setVolume s v).currentVolume = max 0 (min 1 v) ∧
    setVolume (setVolume s v) v = setVolume s v := by
  cases h : s.sound <;> simp [setVolume, h]

/-- Claim C10: when the restart branch does not apply (position at most
3 s or no active session) and the cursor is at or before the head,
skipToPrevious returns with the state completely unchanged. -/
theorem c10_skip_previous_noop (s : EngineState)
    (h1 : ¬(3 < s.position ∧ s.sound.isSome = true)) (h2 : s.currentIndex ≤ 0) :
    skipToPrevious s = some s := by
  simp [skipToPrevious, h1, h2]

/-- Witness for C10 at the initial state. -/
theorem c10_skip_previous_noop_witness :
    skipToPrevious initialState = some initialState :=
  c10_skip_previous_noop initialState (by decide) (by decide)

/-- Claim C1 counterexample: setQueue does not reset the prestarted
flag.  From a state in which the next track has been prestarted, a queue
replacement leaves prestartedNext true, refuting the claim that it is
false immediately after setQueue. -/
theorem c1_set_queue_keeps_prestarted :
    (setQueue stPrestarted [trackC] 0).prestartedNext = true := by
  decide

/-- Claim C1 (amended): prestartedNext is false immediately after
playNext, after every completing path of skipToNext (including the
callback-driven promotion, whose handler is skipToNext), and after the
cursor-moving branch of skipToPrevious; setQueue however leaves the flag
exactly as it was, and the restart and head-of-queue branches of
skipToPrevious do not touch it either. -/
theorem c1_prestarted_reset_amended (s : EngineState) (tracks arr : List Track)
    (i : Int) (r : Option (List Track)) (ok : Bool) :
    (playNext s arr ok).prestartedNext = false ∧
    (∀ s', skipToNext s r ok = some s' → s'.prestartedNext = false) ∧
    (∀ s', skipToPrevious s = some s' → ¬(3 < s.position ∧ s.sound.isSome = true) →
        0 < s.currentIndex → s'.prestartedNext = false) ∧
    (setQueue s tracks i).prestartedNext = s.prestartedNext := by
  refine ⟨?_, ?_, ?_, by simp [setQueue]⟩
  · simp only [playNext]
    repeat' split
    all_goals rfl
  · intro s' h
    simp only [skipToNext] at h
    repeat' split at h
    all_goals
      first
      | exact Option.noConfusion h
      | (injection h with h; subst h; rfl)
  · intro s' h hrestart hpos
    simp only [skipToPrevious] at h
    rw [if_neg hrestart, if_neg (by omega)] at h
    split at h
    · exact Option.noConfusion h
    · injection h with h
      subst h
      rfl

/-- Witness for the amended C1 at concrete mid-playback states. -/
theorem c1_prestarted_reset_amended_witness :
    (playNext stPrestarted [trackC] true).prestartedNext = false ∧
    ((skipToNext stPrestarted (some []) true).getD initialState).prestartedNext = false ∧
    ((skipToPrevious stOnBEarly).getD initialState).prestartedNext = false ∧
    (setQueue stPrestarted [trackC] 0).prestartedNext = stPrestarted.prestartedNext := by
  have h1 := c1_prestarted_reset_amended stPrestarted [trackC] [trackC] 0 (some []) true
  have h2 := c1_prestarted_reset_amended stOnBEarly [trackC] [trackC] 0 (some []) true
  exact ⟨h1.1, h1.2.1 _ (by decide), h2.2.2.1 _ (by decide) (by decide) (by decide), h1.2.2.2⟩

/-- Claim C2 counterexample: skipToPrevious 1.2 s into track B (index 1)
does not restart the current track; it moves the cursor back to 0,
because the source restarts only when position exceeds 3 s.  This refutes
the claim that position at most 3 restarts with the index unchanged. -/
theorem c2_early_previous_moves_cursor :
    ¬(3 < stOnBEarly.position) ∧ stOnBEarly.currentIndex = 1 ∧
    (skipToPrevious stOnBEarly).map EngineState.currentIndex = some 0 := by
  decide

/-- Claim C2 (amended): the 3-second rule is the reverse of the claim.
When position exceeds 3 s and an active session exists, skipToPrevious
restarts the current track from 0 and leaves the cursor, queue and
current track unchanged; otherwise, when the cursor is past the head, it
moves the cursor back by one and starts the previous track from 0. -/
theorem c2_skip_previous_amended (s s' : EngineState) (h : skipToPrevious s = some s') :
    (3 < s.position → s.sound.isSome = true →
       s'.currentIndex = s.currentIndex ∧ s'.position = 0 ∧
       s'.queue = s.queue ∧ s'.currentTrack = s.currentTrack ∧
       (∀ snd, s.sound = some snd → s'.sound = some { snd with pos := 0 })) ∧
    (¬(3 < s.position ∧ s.sound.isSome = true) → 0 < s.currentIndex →
       s'.currentIndex = s.currentIndex - 1 ∧ s'.position = 0 ∧
       s'.currentTrack = getAt s.queue (s.currentIndex - 1) ∧
       (∀ snd, s'.sound = some snd → snd.pos = 0 ∧ snd.playing = true)) := by
  constructor
  · intro hp hs
    rw [skipToPrevious, if_pos ⟨hp, hs⟩] at h
    injection h with h
    subst h
    refine ⟨rfl, rfl, rfl, rfl, ?_⟩
    intro snd hsnd
    simp [hsnd]
  · intro hc hpos
    rw [skipToPrevious, if_neg hc, if_neg (by omega)] at h
    cases hget : getAt s.queue (s.currentIndex - 1) with
    | none => rw [hget] at h; exact Option.noConfusion h
    | some pt =>
      rw [hget] at h
      injection h with h
      subst h
      refine ⟨rfl, rfl, rfl, ?_⟩
      intro snd hsnd
      injection hsnd with hsnd
      subst hsnd
      exact ⟨by simp [mkSession], rfl⟩

/-- Witness for the amended C2: at 10 s into track B the current track
restarts with the cursor unchanged; at 1.2 s the cursor moves back. -/
theorem c2_skip_previous_amended_witness :
    ((skipToPrevious stOnBLate).getD initialState).currentIndex = stOnBLate.currentIndex ∧
    ((skipToPrevious stOnBLate).getD initialState).position = 0 ∧
    ((skipToPrevious stOnBEarly).getD initialState).currentIndex = stOnBEarly.currentIndex - 1 ∧
    ((skipToPrevious stOnBEarly).getD initialState).position = 0 := by
  have h1 := (c2_skip_previous_amended stOnBLate ((skipToPrevious stOnBLate).getD initialState)
    (by decide)).1 (by decide) (by decide)
  have h2 := (c2_skip_previous_amended stOnBEarly ((skipToPrevious stOnBEarly).getD initialState)
    (by decide)).2 (by decide) (by decide)
  exact ⟨h1.1, h1.2.1, h2.1, h2.2.1⟩

/-- Claim C5 counterexample: seekTo performs no clamping.  On a state
whose duration is 10, seeking to -5 stores position -5, not the clamp of
-5 into [0, 10], refuting the claim that the observable position is set
to the clamped value. -/
theorem c5_seek_does_not_clamp :
    (seekTo stDur10 (-5)).position = -5 ∧
    stDur10.duration = 10 ∧
    (seekTo stDur10 (-5)).position ≠ max 0 (min stDur10.duration (-5)) := by
  decide

/-- Claim C5 (amended): seekTo applies the raw, unclamped argument: with
an active session it seeks that session to the argument and stores the
argument as the observable position, leaving every other field (the
pending session included) unchanged; with no active session it is a
complete no-op. -/
theorem c5_seek_to_amended (s : EngineState) (seconds : Rat) :
    (∀ snd, s.sound = some snd →
       seekTo s seconds = { s with sound := some { snd with pos := seconds },
                                   position := seconds }) ∧
    (s.sound = none → seekTo s seconds = s) := by
  constructor
  · intro snd hsnd
    simp [seekTo, hsnd]
  · intro hnone
    simp [seekTo, hnone]

/-- Witness for the amended C5 at a live state and at the initial
state. -/
theorem c5_seek_to_amended_witness :
    seekTo stDur10 7 = { stDur10 with sound := some { sessB10 with pos := 7 }, position := 7 } ∧
    seekTo initialState 7 = initialState :=
  ⟨(c5_seek_to_amended stDur10 7).1 sessB10 rfl, (c5_seek_to_amended initialState 7).2 rfl⟩

/-- Claim C8 counterexample: a failed load inside play() sets the error
but leaves isPlaying true (it was set optimistically on entry and is
never reverted in the catch), refuting the claim that isPlaying is not
left true after the failure. -/
theorem c8_failure_leaves_playing_flag :
    stReady.isPlaying = false ∧
    (play stReady (some "boom") true).error = some "boom" ∧
    (play stReady (some "boom") true).isPlaying = true := by
  decide

/-- Claim C8 (amended): when session creation inside play() fails, the
engine stores the failure message in error, clears isLoading, leaves the
queue, cursor, current track and the (null) session handle untouched —
so a subsequent play() succeeds, clearing the error and installing a
session — but isPlaying, set optimistically at entry, remains true
rather than falling back to a non-playing state. -/
theorem c8_play_failure_amended (s : EngineState) (msg : String) (ok : Bool)
    (h1 : s.currentTrack.isSome = true) (h2 : s.sound = none) :
    (play s (some msg) ok).error = some msg ∧
    (play s (some msg) ok).isLoading = false ∧
    (play s (some msg) ok).isPlaying = true ∧
    (play s (some msg) ok).sound = none ∧
    (play s (some msg) ok).queue = s.queue ∧
    (play s (some msg) ok).currentIndex = s.currentIndex ∧
    (play s (some msg) ok).currentTrack = s.currentTrack ∧
    (play (play s (some msg) ok) none ok).error = none ∧
    (play (play s (some msg) ok) none ok).isLoading = false ∧
    (play (play s (some msg) ok) none ok).isPlaying = true ∧
    ((play (play s (some msg) ok) none ok).sound).isSome = true := by
  cases hct : s.currentTrack with
  | none => rw [hct] at h1; exact absurd h1 (by simp)
  | some ct =>
    have hstep : play s (some msg) ok =
        { s with isPlaying := true, isLoading := false, error := some msg } := by
      simp [play, hct, h2]
    rw [hstep]
    refine ⟨rfl, rfl, rfl, h2, rfl, rfl, hct, ?_, ?_, ?_, ?_⟩ <;>
      cases hga : getAt s.queue (s.currentIndex + 1) <;>
        simp [play, hct, h2, hga]

/-- Witness for the amended C8: a concrete failed load followed by a
successful retry. -/
theorem c8_play_failure_amended_witness :
    (play stReady (some "x") true).error = some "x" ∧
    (play stReady (some "x") true).isPlaying = true ∧
    (play (play stReady (some "x") true) none true).sound.isSome = true := by
  have h := c8_play_failure_amended stReady "x" true (by decide) (by decide)
  exact ⟨h.1, h.2.2.1, h.2.2.2.2.2.2.2.2.2.2⟩

/-- Claim C6: within one position-update reaction in which both
promotion triggers hold (the finish signal and the 0.02 s end
threshold), the listener fires onFinish exactly once — a fresh latch
fires and is set, a set latch does not fire — the fired promotion
(skipToNext) advances currentIndex by exactly one, and the new active
session installed by the promotion carries a fresh (false) latch, which
is the only way the latch is reset. -/
theorem c6_promotion_at_most_once (s : EngineState) (st : PlaybackStatus)
    (r : Option (List Track)) (ok : Bool)
    (hfin : st.didJustFinish = true)
    (heps : st.isLoaded = true ∧ 0 < st.durationVal.getD 0 ∧
            max 0 (st.durationVal.getD 0 - Rat.divInt 1 50) ≤ st.currentTime) :
    ((listenerStep s false st).2.2 = true ∧ (listenerStep s false st).2.1 = true) ∧
    (listenerStep s true st).2.2 = false ∧
    (∀ s', s.currentIndex + 1 < (s.queue.length : Int) →
       skipToNext s r ok = some s' →
       s'.currentIndex = s.currentIndex + 1 ∧
       ∀ snd, s'.sound = some snd → snd.latchFinished = false) := by
  clear heps
  refine ⟨by simp [listenerStep, hfin], by simp [listenerStep], ?_⟩
  intro s' hlt h
  have hnle : ¬((s.queue.length : Int) ≤ s.currentIndex + 1) := by omega
  simp only [skipToNext] at h
  rw [if_neg hnle, if_neg hnle] at h
  repeat' split at h
  all_goals
    first
    | exact Option.noConfusion h
    | (injection h with h; subst h;
       exact ⟨rfl, fun snd hsnd => by injection hsnd with hsnd; subst hsnd; rfl⟩)

/-- Witness for C6 at a concrete prestarted state and a status carrying
both triggers. -/
theorem c6_promotion_at_most_once_witness :
    ((listenerStep stPrestarted false stFinish).2.2 = true ∧
     (listenerStep stPrestarted false stFinish).2.1 = true) ∧
    (listenerStep stPrestarted true stFinish).2.2 = false ∧
    ((skipToNext stPrestarted none true).getD initialState).currentIndex =
      stPrestarted.currentIndex + 1 := by
  have h := c6_promotion_at_most_once stPrestarted stFinish none true rfl
    ⟨rfl, by decide, by norm_num [stFinish, Rat.divInt_eq_div]⟩
  exact ⟨h.1, h.2.1, (h.2.2 _ (by decide) (by decide)).1⟩
